import Mathlib

/-!
Shallow embedding of the page-composition layer of the typst repository
(src/library/src/layout/page.rs): the `PageNode::layout` algorithm, the
`Marginal` abstraction with its `resolve` and `Cast` implementations, and the
paper registry with `Paper::from_str`.

Conventions of the embedding:
* Absolute lengths (`Abs`, a wrapper over `f64` in the source) are modelled as
  exact rationals extended with a positive infinity (`Abs.inf` models
  `Abs::inf()`).  The raw unit of the model is the millimeter, so `Abs::mm(x)`
  is the identity injection; all comparisons in the claims are unit-consistent.
  Negative infinity and NaN, which IEEE arithmetic could produce in degenerate
  slot-geometry computations, are outside the model; no theorem below inspects
  those derived values.  The float literal `0.1190` of the source is modelled
  as the exact rational `119/1000`.
* Machine integers (`usize` page numbers) are modelled as `Nat`; the `as i64`
  cast becomes `Int.ofNat`.  Overflow of page counters is not modelled.
* External collaborators (the block-layout pass, closure evaluation, frame
  surgery, the `Regions` constraint type) live outside src/ and are modelled
  from the spec as an abstract `World` of pure functions and small structures
  mirroring the interfaces in spec sections 4 and 6.
* Fallible operations return `Except String`; the `Vec::remove(0)` call that
  can panic is modelled by the distinguished outcome `LayoutOutcome.panics`.
-/

/-- An absolute length: a finite rational number of millimeters, or positive
infinity (`Abs::inf()`), which marks an unbounded page axis. -/
inductive Abs where
  | fin (v : ℚ)
  | inf
deriving DecidableEq, Repr

/-- `Abs::mm`: build an absolute length from millimeters (the raw unit of the
model, so this is the finite injection). -/
def Abs.mm (v : ℚ) : Abs := Abs.fin v

/-- `Abs::zero()`. -/
def Abs.zero : Abs := Abs.fin 0

/-- `f64::is_finite` on a length: true exactly for the finite constructor. -/
def Abs.isFinite : Abs → Bool
  | .fin _ => true
  | .inf => false

/-- `f64::min` restricted to the values of the model: infinity is larger than
every finite length. -/
def Abs.min : Abs → Abs → Abs
  | .fin a, .fin b => .fin (Min.min a b)
  | .fin a, .inf => .fin a
  | .inf, b => b

/-- Scalar multiplication `q * a` (used for `0.1190 * min`); a positive scalar
times infinity is infinity. -/
def Abs.scale (q : ℚ) : Abs → Abs
  | .fin v => .fin (q * v)
  | .inf => .inf

/-- Addition of lengths; infinity absorbs. -/
def Abs.add : Abs → Abs → Abs
  | .fin a, .fin b => .fin (a + b)
  | _, _ => .inf

/-- Subtraction of lengths; any combination involving infinity is collapsed to
infinity (the negative-infinity/NaN results of IEEE arithmetic are outside the
model and never inspected by a theorem). -/
def Abs.sub : Abs → Abs → Abs
  | .fin a, .fin b => .fin (a - b)
  | _, _ => .inf

/-- `Axes<T>`: a generic pair of per-axis values (the source's `Axes`, of which
`Size = Axes<Abs>` and the expand flags `Axes<bool>` are instances). -/
structure Axes (α : Type) where
  x : α
  y : α
deriving DecidableEq, Repr

/-- `Axes::map`: apply a function to both components. -/
def Axes.map {α β : Type} (a : Axes α) (f : α → β) : Axes β := ⟨f a.x, f a.y⟩

/-- `Axes::splat`: the same value on both axes. -/
def Axes.splat {α : Type} (v : α) : Axes α := ⟨v, v⟩

/-- `Size = Axes<Abs>`. -/
abbrev Size := Axes Abs

/-- `Size::new`. -/
def Size.new (x y : Abs) : Size := ⟨x, y⟩

/-- `Point`: a position inside a frame; same shape as a size. -/
abbrev Point := Axes Abs

/-- `Point::new`. -/
def Point.new (x y : Abs) : Point := ⟨x, y⟩

/-- `Point::with_x`: given x, zero y. -/
def Point.with_x (x : Abs) : Point := ⟨x, Abs.zero⟩

/-- `Point::zero()`. -/
def Point.zero : Point := ⟨Abs.zero, Abs.zero⟩

/-- `Smart<T>`: either `Auto` or a custom value (the source's `Smart`). -/
inductive Smart (α : Type) where
  | auto
  | custom (v : α)
deriving DecidableEq, Repr

/-- `Smart::unwrap_or`: the custom value, or the fallback for `Auto`. -/
def Smart.unwrap_or {α : Type} : Smart α → α → α
  | .auto, d => d
  | .custom v, _ => v

/-- `Sides<T>`: a value for each of the four page sides. -/
structure Sides (α : Type) where
  left : α
  top : α
  right : α
  bottom : α
deriving DecidableEq, Repr

/-- `Sides::map`. -/
def Sides.map {α β : Type} (s : Sides α) (f : α → β) : Sides β :=
  ⟨f s.left, f s.top, f s.right, f s.bottom⟩

/-- `Sides::splat`. -/
def Sides.splat {α : Type} (v : α) : Sides α := ⟨v, v, v, v⟩

/-- `Rel<Length>`: a length plus a ratio of some whole (`rel` is the ratio,
`abs` the absolute part).  The `em` component of `Length` plays no role in any
claim and is not modelled, so the resolved and unresolved forms coincide. -/
structure RelLen where
  rel : ℚ
  abs : Abs
deriving DecidableEq, Repr

/-- `Rel::from(abs)`: a purely absolute relative length (zero ratio). -/
def RelLen.ofAbs (a : Abs) : RelLen := ⟨0, a⟩

/-- Modelled from the spec: `Rel::relative_to` of the length arithmetic
primitives (outside src/) — "margin box is computed against that frame's
actual size": ratio of the whole plus the absolute part. -/
def RelLen.relative_to (r : RelLen) (whole : Abs) : Abs :=
  (Abs.scale r.rel whole).add r.abs

/-- Modelled from the spec: resolving the four relative margin sides against a
frame size (`padding.resolve(styles).relative_to(size)` in the source; the
resolution and `relative_to` live outside src/).  Horizontal sides are
relative to the width, vertical sides to the height. -/
def Sides.relative_to (s : Sides RelLen) (size : Size) : Sides Abs :=
  ⟨s.left.relative_to size.x, s.top.relative_to size.y,
   s.right.relative_to size.x, s.bottom.relative_to size.y⟩

/-- Semantic role tags applied to composited marginal frames. -/
inductive Role where
  | Header
  | Footer
  | Background
  | Foreground
deriving DecidableEq, Repr

/-- The content tree, restricted to the constructors page layout builds or
inspects: literal text (`TextNode`), an opaque subtree, the column wrapper
(`ColumnsNode`), the padding wrapper (`Content::padded`) and the fill wrapper
(`Content::filled`).  Paints are opaque and identified by a number. -/
inductive Content where
  | text (s : String)
  | other (id : ℕ)
  | columnsNode (columns : ℕ) (child : Content)
  | padded (pad : Sides RelLen) (child : Content)
  | filled (paint : ℕ) (child : Content)
deriving DecidableEq, Repr

/-- Modelled from the spec: a geometry frame (outside src/), per the interface
surface of spec section 6: a size, an optional semantic role tag, and an
ordered list of positioned sub-frames (z-order is list order). -/
inductive Frame where
  | mk (size : Size) (role : Option Role) (items : List (Point × Frame))

/-- The size of a frame (`Frame::size`). -/
def Frame.size : Frame → Size
  | .mk s _ _ => s

/-- The role tag of a frame. -/
def Frame.role : Frame → Option Role
  | .mk _ r _ => r

/-- The positioned children of a frame in z-order. -/
def Frame.items : Frame → List (Point × Frame)
  | .mk _ _ i => i

/-- Modelled from the spec: `Frame::apply_role` — "tagged with its semantic
role for downstream consumers". -/
def Frame.apply_role : Frame → Role → Frame
  | .mk s _ i, r => .mk s (some r) i

/-- Modelled from the spec: `Frame::push_frame` — composite a sub-frame above
existing content (appended in z-order). -/
def Frame.push_frame : Frame → Point → Frame → Frame
  | .mk s r i, pos, sub => .mk s r (i ++ [(pos, sub)])

/-- Modelled from the spec: `Frame::prepend_frame` — composite a sub-frame
beneath existing content (prepended in z-order). -/
def Frame.prepend_frame : Frame → Point → Frame → Frame
  | .mk s r i, pos, sub => .mk s r ((pos, sub) :: i)

/-- Modelled from the spec: the value type of the scripting runtime (outside
src/), restricted to the variants the marginal cast distinguishes plus
representatives of the other types it rejects. -/
inductive Value where
  | none
  | auto
  | bool (b : Bool)
  | int (i : ℤ)
  | float (v : ℚ)
  | str (s : String)
  | content (c : Content)
  | func (f : ℕ)
deriving DecidableEq, Repr

/-- Modelled from the spec: `Value::type_name`, returning the user-facing name
of a value's type (used in the cast's type-mismatch error). -/
def Value.type_name : Value → String
  | .none => "none"
  | .auto => "auto"
  | .bool _ => "boolean"
  | .int _ => "integer"
  | .float _ => "float"
  | .str _ => "string"
  | .content _ => "content"
  | .func _ => "function"

/-- `Spanned<T>`: a value together with its source span (spans are opaque
numbers in the model). -/
structure Spanned (α : Type) where
  v : α
  span : ℕ
deriving DecidableEq, Repr

/-- A header, footer, foreground or background definition: nothing, bare
content, or a closure (identified by a number) mapping a page number to
content, together with its span. -/
inductive Marginal where
  | none
  | content (c : Content)
  | func (f : ℕ) (span : ℕ)
deriving DecidableEq, Repr

/-- Modelled from the spec: a `Regions` layout constraint (outside src/) — a
minimum and maximum region size and per-axis expand flags, plus whether this
is a single-region request (`Regions::one`) or a repeating one
(`Regions::repeat`). -/
structure Regions where
  minSize : Size
  maxSize : Size
  expand : Axes Bool
  oneShot : Bool

/-- `Regions::one(size, base, expand)`: a single region. -/
def Regions.one (size base : Size) (expand : Axes Bool) : Regions :=
  ⟨size, base, expand, true⟩

/-- `Regions::repeat(size, base, expand)`: an unbounded run of equal regions. -/
def Regions.repeat (size base : Size) (expand : Axes Bool) : Regions :=
  ⟨size, base, expand, false⟩

/-- Modelled from the spec: the read-only world of external collaborators —
closure evaluation (`Func::call_detached`, here keyed by the closure id and
span, applied to an argument list), conversion of a value into displayable
content (`Value::display`), and the generic block-layout pass
(`Content::layout_block`); all pure functions per spec sections 5 and 6.  The
style chain passed through to the collaborator is fixed and therefore
elided. -/
structure World where
  call : ℕ → ℕ → List Value → Except String Value
  display : Value → Content
  layoutBlock : Content → Regions → Except String (List Frame)

/-- `Marginal::resolve`: nothing for `None`; the stored subtree for `Content`;
for `Func`, call the closure with the single argument `Value::Int(page)` and
display its result, propagating failure. -/
def Marginal.resolve (m : Marginal) (world : World) (page : ℕ) :
    Except String (Option Content) :=
  match m with
  | .none => .ok Option.none
  | .content c => .ok (some c)
  | .func f span =>
    match world.call f span [Value.int (Int.ofNat page)] with
    | .error e => .error e
    | .ok v => .ok (some (world.display v))

/-- `Cast::<Spanned<Value>>::is` for `Marginal`: true only for content and
function values. -/
def Marginal.is (value : Spanned Value) : Bool :=
  match value.v with
  | .content _ => true
  | .func _ => true
  | _ => false

/-- `Cast::<Spanned<Value>>::cast` for `Marginal`: none, strings (wrapped as
literal text), content and functions are accepted; everything else is a
type-mismatch error naming the found type. -/
def Marginal.cast (value : Spanned Value) : Except String Marginal :=
  match value.v with
  | .none => .ok Marginal.none
  | .str v => .ok (Marginal.content (Content.text v))
  | .content v => .ok (Marginal.content v)
  | .func v => .ok (Marginal.func v value.span)
  | v => .error ("expected none, content or function, found " ++ v.type_name)

/-- Specification of a paper: width and height in millimeters. -/
structure Paper where
  width : ℚ
  height : ℚ
deriving DecidableEq, Repr

/-- `Paper::width()` as an absolute length. -/
def Paper.widthAbs (p : Paper) : Abs := Abs.mm p.width

/-- `Paper::height()` as an absolute length. -/
def Paper.heightAbs (p : Paper) : Abs := Abs.mm p.height

/-- `Paper::A4`. -/
def Paper.A4 : Paper := ⟨210, 297⟩

/-- The compiled-in paper registry of the `papers!` macro invocation: each
entry pairs the kebab-case name with the width/height in millimeters, in
source order.  The table is split into chunks purely to keep elaboration of
the list literals cheap; `papers` below is their concatenation in source
order. -/
def papersA : List (String × Paper) := [
  ("a0", ⟨841, 1189⟩),
  ("a1", ⟨594, 841⟩),
  ("a2", ⟨420, 594⟩),
  ("a3", ⟨297, 420⟩),
  ("a4", ⟨210, 297⟩),
  ("a5", ⟨148, 210⟩),
  ("a6", ⟨105, 148⟩),
  ("a7", ⟨74, 105⟩),
  ("a8", ⟨52, 74⟩),
  ("a9", ⟨37, 52⟩),
  ("a10", ⟨26, 37⟩),
  ("a11", ⟨18, 26⟩),
  ("iso-b1", ⟨707, 1000⟩),
  ("iso-b2", ⟨500, 707⟩),
  ("iso-b3", ⟨353, 500⟩),
  ("iso-b4", ⟨250, 353⟩),
  ("iso-b5", ⟨176, 250⟩),
  ("iso-b6", ⟨125, 176⟩),
  ("iso-b7", ⟨88, 125⟩),
  ("iso-b8", ⟨62, 88⟩),
  ("iso-c3", ⟨324, 458⟩),
  ("iso-c4", ⟨229, 324⟩)
]

def papersB : List (String × Paper) := [
  ("iso-c5", ⟨162, 229⟩),
  ("iso-c6", ⟨114, 162⟩),
  ("iso-c7", ⟨81, 114⟩),
  ("iso-c8", ⟨57, 81⟩),
  ("din-d3", ⟨272, 385⟩),
  ("din-d4", ⟨192, 272⟩),
  ("din-d5", ⟨136, 192⟩),
  ("din-d6", ⟨96, 136⟩),
  ("din-d7", ⟨68, 96⟩),
  ("din-d8", ⟨48, 68⟩),
  ("sis-g5", ⟨169, 239⟩),
  ("sis-e5", ⟨115, 220⟩),
  ("ansi-a", ⟨216, 279⟩),
  ("ansi-b", ⟨279, 432⟩),
  ("ansi-c", ⟨432, 559⟩),
  ("ansi-d", ⟨559, 864⟩),
  ("ansi-e", ⟨864, 1118⟩),
  ("arch-a", ⟨229, 305⟩),
  ("arch-b", ⟨305, 457⟩),
  ("arch-c", ⟨457, 610⟩),
  ("arch-d", ⟨610, 914⟩),
  ("arch-e1", ⟨762, 1067⟩)
]

def papersC : List (String × Paper) := [
  ("arch-e", ⟨914, 1219⟩),
  ("jis-b0", ⟨1030, 1456⟩),
  ("jis-b1", ⟨728, 1030⟩),
  ("jis-b2", ⟨515, 728⟩),
  ("jis-b3", ⟨364, 515⟩),
  ("jis-b4", ⟨257, 364⟩),
  ("jis-b5", ⟨182, 257⟩),
  ("jis-b6", ⟨128, 182⟩),
  ("jis-b7", ⟨91, 128⟩),
  ("jis-b8", ⟨64, 91⟩),
  ("jis-b9", ⟨45, 64⟩),
  ("jis-b10", ⟨32, 45⟩),
  ("jis-b11", ⟨22, 32⟩),
  ("sac-d0", ⟨764, 1064⟩),
  ("sac-d1", ⟨532, 760⟩),
  ("sac-d2", ⟨380, 528⟩),
  ("sac-d3", ⟨264, 376⟩),
  ("sac-d4", ⟨188, 260⟩),
  ("sac-d5", ⟨130, 184⟩),
  ("sac-d6", ⟨92, 126⟩),
  ("iso-id-1", ⟨85.6, 53.98⟩),
  ("iso-id-2", ⟨74, 105⟩)
]

def papersD : List (String × Paper) := [
  ("iso-id-3", ⟨88, 125⟩),
  ("asia-f4", ⟨210, 330⟩),
  ("jp-shiroku-ban-4", ⟨264, 379⟩),
  ("jp-shiroku-ban-5", ⟨189, 262⟩),
  ("jp-shiroku-ban-6", ⟨127, 188⟩),
  ("jp-kiku-4", ⟨227, 306⟩),
  ("jp-kiku-5", ⟨151, 227⟩),
  ("jp-business-card", ⟨91, 55⟩),
  ("cn-business-card", ⟨90, 54⟩),
  ("eu-business-card", ⟨85, 55⟩),
  ("fr-tellière", ⟨340, 440⟩),
  ("fr-couronne-écriture", ⟨360, 460⟩),
  ("fr-couronne-édition", ⟨370, 470⟩),
  ("fr-raisin", ⟨500, 650⟩),
  ("fr-carré", ⟨450, 560⟩),
  ("fr-jésus", ⟨560, 760⟩),
  ("uk-brief", ⟨406.4, 342.9⟩),
  ("uk-draft", ⟨254, 406.4⟩),
  ("uk-foolscap", ⟨203.2, 330.2⟩),
  ("uk-quarto", ⟨203.2, 254⟩),
  ("uk-crown", ⟨508, 381⟩),
  ("uk-book-a", ⟨111, 178⟩)
]

def papersE : List (String × Paper) := [
  ("uk-book-b", ⟨129, 198⟩),
  ("us-letter", ⟨215.9, 279.4⟩),
  ("us-legal", ⟨215.9, 355.6⟩),
  ("us-tabloid", ⟨279.4, 431.8⟩),
  ("us-executive", ⟨84.15, 266.7⟩),
  ("us-foolscap-folio", ⟨215.9, 342.9⟩),
  ("us-statement", ⟨139.7, 215.9⟩),
  ("us-ledger", ⟨431.8, 279.4⟩),
  ("us-oficio", ⟨215.9, 340.36⟩),
  ("us-gov-letter", ⟨203.2, 266.7⟩),
  ("us-gov-legal", ⟨215.9, 330.2⟩),
  ("us-business-card", ⟨88.9, 50.8⟩),
  ("us-digest", ⟨139.7, 215.9⟩),
  ("us-trade", ⟨152.4, 228.6⟩),
  ("newspaper-compact", ⟨280, 430⟩),
  ("newspaper-berliner", ⟨315, 470⟩),
  ("newspaper-broadsheet", ⟨381, 578⟩),
  ("presentation-16-9", ⟨297, 167.0625⟩),
  ("presentation-4-3", ⟨280, 210⟩)
]

/-- The full registry in source order. -/
def papers : List (String × Paper) := papersA ++ papersB ++ papersC ++ papersD ++ papersE

/-- One character of Rust's `str::to_lowercase`, restricted to the code
points whose full Unicode lowercase image can intersect the registry-name
alphabet (lowercase ASCII letters, digits, the hyphen, `é`, `è`): the ASCII
uppercase letters, `É` (U+00C9) and `È` (U+00C8), and the Kelvin sign
(U+212A, whose Unicode lowercase is the ASCII `k`).  Every other code point
is left unchanged.  This is behavior-preserving for `Paper::from_str`: for
any other code point, neither the character itself nor its Rust lowercase
image occurs in a registry name (the only remaining code point whose Unicode
case data mentions an ASCII target, `İ` U+0130, lowercases under the full
mapping Rust uses to the two-character sequence `i` + U+0307, which no
registry name contains), so on both sides of the model the lowercased string
fails the registry match at that position. -/
def rustLowerChar (c : Char) : Char :=
  if 'A' ≤ c ∧ c ≤ 'Z' then Char.ofNat (c.toNat + 32)
  else if c = 'É' then 'é'
  else if c = 'È' then 'è'
  else if c.toNat = 0x212A then 'k'
  else c

/-- Rust's `str::to_lowercase`, character-wise via `rustLowerChar` (Rust's
multi-character expansions can never produce a registry name, so they are
covered by the identity default). -/
def rustLower (s : String) : String := ⟨s.data.map rustLowerChar⟩

/-- Sequential first-match scan of the registry, mirroring the `match` over
string patterns that the `papers!` macro expands to. -/
def findPaper (n : String) : List (String × Paper) → Option Paper
  | [] => Option.none
  | (k, p) :: rest => if n = k then some p else findPaper n rest

/-- `Paper::from_str`: lowercase the input, match it against the registry, and
fail with `"invalid paper name"` when no entry matches. -/
def Paper.from_str (name : String) : Except String Paper :=
  match findPaper (rustLower name) papers with
  | some p => .ok p
  | Option.none => .error "invalid paper name"

/-- The resolved style properties that `PageNode::layout` reads from the style
chain (`styles.get(...)` for each `#[property]` constant; the chain machinery
itself is outside src/, so the properties arrive already resolved).  `width`
and `height` are `Smart` lengths (auto = page fits content), margins are four
`Smart` relative lengths after the fold (auto = default margin), `columns` is
the positive column count, `fill` an optional opaque paint, and the four
marginal slots. -/
structure PageStyles where
  width : Smart Abs
  height : Smart Abs
  flipped : Bool
  margins : Sides (Smart RelLen)
  columns : ℕ
  fill : Option ℕ
  header : Marginal
  footer : Marginal
  background : Marginal
  foreground : Marginal

/-- `PageNode`: owns a single child content subtree. -/
structure PageNode where
  body : Content

/-- The outcome of a layout computation: a value, a propagated source error
(`SourceResult::Err`), or a Rust panic (the `Vec::remove(0)` call on an empty
frame vector). -/
inductive LayoutOutcome (α : Type) where
  | ok (val : α)
  | error (e : String)
  | panics

/-- Lines 73-76 of page.rs: the reference minimum — the smaller of width and
height if that is finite (under IEEE `min`, the minimum is infinite only when
both lengths are), otherwise A4's width. -/
def referenceMin (width height : Abs) : Abs :=
  let m := width.min height
  if m.isFinite then m else Paper.A4.widthAbs

/-- Line 79 of page.rs: the default margin,
`Rel::from(0.1190 * min)`. -/
def defaultMargin (width height : Abs) : RelLen :=
  RelLen.ofAbs (Abs.scale 0.1190 (referenceMin width height))

/-- Lines 94-96 of page.rs: wrap the child in a background fill when a fill
paint is set. -/
def fillWrap (fill : Option ℕ) (c : Content) : Content :=
  match fill with
  | Option.none => c
  | some paint => Content.filled paint c

/-- The straight-line prefix of `PageNode::layout` (lines 66-99 of page.rs):
resolved page size (axes swapped when flipped), margin padding with auto sides
defaulted, the wrapped child (columns inside padding inside fill), and the
regions handed to the block-layout collaborator. -/
structure Prepared where
  size : Size
  padding : Sides RelLen
  child : Content
  regions : Regions

/-- Lines 66-99 of page.rs, as a pure function of the node and the resolved
styles. -/
def PageNode.prepare (node : PageNode) (styles : PageStyles) : Prepared :=
  let width := styles.width.unwrap_or Abs.inf
  let height := styles.height.unwrap_or Abs.inf
  let size0 : Size := Size.new width height
  let size := if styles.flipped then Size.new size0.y size0.x else size0
  let padding := styles.margins.map (fun side => side.unwrap_or (defaultMargin width height))
  let child := node.body
  let child := if styles.columns > 1 then Content.columnsNode styles.columns node.body else child
  let child := Content.padded padding child
  let child := fillWrap styles.fill child
  let regions := Regions.repeat size size (size.map Abs.isFinite)
  ⟨size, padding, child, regions⟩

/-- One iteration of the inner marginal loop (lines 129-139 of page.rs):
resolve the marginal at the current page number; on content, lay it into a
single expanded region of the slot area, take the first produced frame
(`remove(0)`, which panics when the collaborator returned no frames), tag it
with the role, and prepend it for backgrounds or append it otherwise. -/
def compositeMarginal (world : World) (frame : Frame) (page : ℕ)
    (role : Role) (m : Marginal) (pos : Point) (area : Size) :
    LayoutOutcome Frame :=
  match m.resolve world page with
  | .error e => .error e
  | .ok Option.none => .ok frame
  | .ok (some content) =>
    let pod := Regions.one area area (Axes.splat true)
    match world.layoutBlock content pod with
    | .error e => .error e
    | .ok [] => .panics
    | .ok (first :: _) =>
      let sub := first.apply_role role
      if role = Role.Background then .ok (frame.prepend_frame pos sub)
      else .ok (frame.push_frame pos sub)

/-- Fold `compositeMarginal` over the slot list of one frame, propagating
errors and panics (the `for (role, marginal, pos, area) in [...]` loop). -/
def composeAll (world : World) (page : ℕ) :
    List (Role × Marginal × Point × Size) → Frame → LayoutOutcome Frame
  | [], frame => .ok frame
  | (role, m, pos, area) :: rest, frame =>
    match compositeMarginal world frame page role m pos area with
    | .ok frame2 => composeAll world page rest frame2
    | .error e => .error e
    | .panics => .panics

/-- Post-processing of a single body frame (lines 108-140 of page.rs): compute
the absolute margin box against this frame's actual size, then composite the
four marginal slots in source order — header (top strip), footer (bottom
strip), foreground (full size), background (full size). -/
def realizeOne (world : World) (styles : PageStyles) (padding : Sides RelLen)
    (frame : Frame) (page : ℕ) : LayoutOutcome Frame :=
  let size := frame.size
  let pad := padding.relative_to size
  let pw := (size.x.sub pad.left).sub pad.right
  let py := size.y.sub pad.bottom
  composeAll world page
    [(Role.Header, styles.header, Point.with_x pad.left, Size.new pw pad.top),
     (Role.Footer, styles.footer, Point.new pad.left py, Size.new pw pad.bottom),
     (Role.Foreground, styles.foreground, Point.zero, size),
     (Role.Background, styles.background, Point.zero, size)]
    frame

/-- The `for frame in &mut frames` loop of `PageNode::layout` (lines 108-143):
post-process each body frame in order at the current page number, then advance
the page counter by one. -/
def realizeFrames (world : World) (styles : PageStyles) (padding : Sides RelLen) :
    List Frame → ℕ → LayoutOutcome (List Frame)
  | [], _ => .ok []
  | frame :: rest, page =>
    match realizeOne world styles padding frame page with
    | .error e => .error e
    | .panics => .panics
    | .ok frame2 =>
      match realizeFrames world styles padding rest (page + 1) with
      | .error e => .error e
      | .panics => .panics
      | .ok rest2 => .ok (frame2 :: rest2)

/-- `PageNode::layout` (lines 58-146 of page.rs): prepare geometry and the
wrapped child, hand them to the block-layout collaborator, and post-process
the produced frames starting at the supplied page number. -/
def PageNode.layout (node : PageNode) (world : World) (page : ℕ)
    (styles : PageStyles) : LayoutOutcome (List Frame) :=
  let pre := node.prepare styles
  match world.layoutBlock pre.child pre.regions with
  | .error e => .error e
  | .ok frames => realizeFrames world styles pre.padding frames page

/-- C3: `Marginal::resolve` returns no content for `None`; returns the stored
content subtree unchanged — the same content for every page number — for
`Content`; and for `Func` calls the closure with the single argument
`Value::Int(page)`, converting the returned value into displayable content and
propagating the closure's failure as an error. -/
theorem c3_marginal_resolve (world : World) (page : ℕ) :
    Marginal.resolve Marginal.none world page = .ok Option.none ∧
    (∀ c : Content, Marginal.resolve (Marginal.content c) world page = .ok (some c)) ∧
    (∀ c : Content, ∀ page2 : ℕ,
      Marginal.resolve (Marginal.content c) world page =
        Marginal.resolve (Marginal.content c) world page2) ∧
    (∀ f span : ℕ, Marginal.resolve (Marginal.func f span) world page =
      (world.call f span [Value.int (Int.ofNat page)]).map
        (fun v => some (world.display v))) := by
  refine ⟨rfl, fun c => rfl, fun c page2 => rfl, fun f span => ?_⟩
  simp only [Marginal.resolve]
  cases world.call f span [Value.int (Int.ofNat page)] <;> rfl

/-- C8: casting a value to a `Marginal` accepts exactly none, strings (wrapped
as literal text content), content and functions; every other type is rejected
with a descriptive type-mismatch error naming the found type. -/
theorem c8_marginal_cast (span : ℕ) :
    Marginal.cast ⟨Value.none, span⟩ = .ok Marginal.none ∧
    (∀ s, Marginal.cast ⟨Value.str s, span⟩ = .ok (Marginal.content (Content.text s))) ∧
    (∀ c, Marginal.cast ⟨Value.content c, span⟩ = .ok (Marginal.content c)) ∧
    (∀ f, Marginal.cast ⟨Value.func f, span⟩ = .ok (Marginal.func f span)) ∧
    Marginal.cast ⟨Value.auto, span⟩ =
      .error "expected none, content or function, found auto" ∧
    (∀ b, Marginal.cast ⟨Value.bool b, span⟩ =
      .error "expected none, content or function, found boolean") ∧
    (∀ i, Marginal.cast ⟨Value.int i, span⟩ =
      .error "expected none, content or function, found integer") ∧
    (∀ v, Marginal.cast ⟨Value.float v, span⟩ =
      .error "expected none, content or function, found float") :=
  ⟨rfl, fun _ => rfl, fun _ => rfl, fun _ => rfl, rfl,
   fun _ => rfl, fun _ => rfl, fun _ => rfl⟩

/-- C10: the cast predicate and the cast function for `Marginal` disagree:
`is` is false on the none value and on every string even though `cast` accepts
both (as `Marginal::None` and literal text content respectively), and `is` is
true exactly for content and function values. -/
theorem c10_cast_is_disagreement (span : ℕ) :
    Marginal.is ⟨Value.none, span⟩ = false ∧
    (∀ s, Marginal.is ⟨Value.str s, span⟩ = false) ∧
    Marginal.cast ⟨Value.none, span⟩ = .ok Marginal.none ∧
    (∀ s, Marginal.cast ⟨Value.str s, span⟩ = .ok (Marginal.content (Content.text s))) ∧
    (∀ v : Value, Marginal.is ⟨v, span⟩ = true ↔
      (∃ c, v = Value.content c) ∨ (∃ f, v = Value.func f)) := by
  refine ⟨rfl, fun s => rfl, rfl, fun s => rfl, fun v => ?_⟩
  cases v <;> simp [Marginal.is]

theorem findPaper_of_mem {l : List (String × Paper)} {k : String} {p : Paper}
    (hnd : (l.map Prod.fst).Nodup) (hm : (k, p) ∈ l) : findPaper k l = some p := by
  induction l with
  | nil => cases hm
  | cons hd t ih =>
    obtain ⟨a, b⟩ := hd
    rw [List.map_cons, List.nodup_cons] at hnd
    rcases List.mem_cons.mp hm with h | h
    · cases h
      simp [findPaper]
    · have hne : k ≠ a := by
        intro he
        subst he
        have hmem : (k, p).1 ∈ t.map Prod.fst := List.mem_map_of_mem Prod.fst h
        exact hnd.1 hmem
      simp only [findPaper, if_neg hne]
      exact ih hnd.2 h

theorem findPaper_eq_none {l : List (String × Paper)} {k : String}
    (h : k ∉ l.map Prod.fst) : findPaper k l = Option.none := by
  induction l with
  | nil => rfl
  | cons hd t ih =>
    obtain ⟨a, b⟩ := hd
    rw [List.map_cons, List.mem_cons] at h
    push_neg at h
    simp only [findPaper, if_neg h.1]
    exact ih h.2

theorem papers_names_nodup : (papers.map Prod.fst).Nodup := by decide

theorem papers_names_lower_fixed : ∀ e ∈ papers, rustLower e.1 = e.1 := by decide

/-- C7: paper parsing is total and exact — every registry name (and every
string whose lowercased form is a registry name) parses to exactly the
registered width and height in millimeters, and every other string fails with
the "invalid paper name" error, never a default substitution. -/
theorem c7_paper_parsing :
    (∀ s p, (s, p) ∈ papers → Paper.from_str s = .ok p) ∧
    (∀ s p, (rustLower s, p) ∈ papers → Paper.from_str s = .ok p) ∧
    (∀ s, rustLower s ∉ papers.map Prod.fst →
      Paper.from_str s = .error "invalid paper name") := by
  have key : ∀ s p, (rustLower s, p) ∈ papers → Paper.from_str s = .ok p := by
    intro s p hm
    unfold Paper.from_str
    rw [findPaper_of_mem papers_names_nodup hm]
  refine ⟨?_, key, ?_⟩
  · intro s p hm
    have hfix := papers_names_lower_fixed (s, p) hm
    exact key s p (by rw [hfix]; exact hm)
  · intro s h
    unfold Paper.from_str
    rw [findPaper_eq_none h]

theorem c7_paper_parsing_witness :
    Paper.from_str "A4" = .ok ⟨210, 297⟩ ∧
    Paper.from_str "FR-JÉSUS" = .ok ⟨560, 760⟩ ∧
    Paper.from_str "a12" = .error "invalid paper name" :=
  ⟨c7_paper_parsing.2.1 "A4" ⟨210, 297⟩ (by decide),
   c7_paper_parsing.2.1 "FR-JÉSUS" ⟨560, 760⟩ (by decide),
   c7_paper_parsing.2.2 "a12" (by decide)⟩

/-- Concrete page node used by witnesses. -/
def wNode : PageNode := ⟨Content.other 0⟩

/-- Concrete styles with both axes finite, all margins auto, one column. -/
def wStylesFin : PageStyles :=
  { width := Smart.custom (Abs.fin 100), height := Smart.custom (Abs.fin 200),
    flipped := false, margins := Sides.splat Smart.auto, columns := 1,
    fill := Option.none, header := Marginal.none, footer := Marginal.none,
    background := Marginal.none, foreground := Marginal.none }

/-- Concrete styles with a finite width and an unbounded (auto) height. -/
def cexStyles : PageStyles :=
  { width := Smart.custom (Abs.fin 100), height := Smart.auto,
    flipped := false, margins := Sides.splat Smart.auto, columns := 1,
    fill := Option.none, header := Marginal.none, footer := Marginal.none,
    background := Marginal.none, foreground := Marginal.none }

/-- C1 (amended): every auto margin side's effective default is 11.90% of the
reference minimum, where the reference minimum is the IEEE minimum of the
resolved width and height — the smaller of the two, with an unbounded axis
counting as larger than any finite one — whenever at least one axis is finite,
and is A4's width only when both axes are unbounded. -/
theorem c1_default_margin (node : PageNode) (styles : PageStyles) :
    (styles.margins.left = Smart.auto →
      (node.prepare styles).padding.left =
        defaultMargin (styles.width.unwrap_or Abs.inf) (styles.height.unwrap_or Abs.inf)) ∧
    (styles.margins.top = Smart.auto →
      (node.prepare styles).padding.top =
        defaultMargin (styles.width.unwrap_or Abs.inf) (styles.height.unwrap_or Abs.inf)) ∧
    (styles.margins.right = Smart.auto →
      (node.prepare styles).padding.right =
        defaultMargin (styles.width.unwrap_or Abs.inf) (styles.height.unwrap_or Abs.inf)) ∧
    (styles.margins.bottom = Smart.auto →
      (node.prepare styles).padding.bottom =
        defaultMargin (styles.width.unwrap_or Abs.inf) (styles.height.unwrap_or Abs.inf)) ∧
    (∀ w h : Abs, (w.isFinite || h.isFinite) = true →
      defaultMargin w h = RelLen.ofAbs (Abs.scale 0.1190 (w.min h))) ∧
    (∀ w h : Abs, w.isFinite = false → h.isFinite = false →
      defaultMargin w h = RelLen.ofAbs (Abs.scale 0.1190 Paper.A4.widthAbs)) := by
  refine ⟨?_, ?_, ?_, ?_, ?_, ?_⟩
  · intro hside
    simp [PageNode.prepare, Sides.map, hside, Smart.unwrap_or]
  · intro hside
    simp [PageNode.prepare, Sides.map, hside, Smart.unwrap_or]
  · intro hside
    simp [PageNode.prepare, Sides.map, hside, Smart.unwrap_or]
  · intro hside
    simp [PageNode.prepare, Sides.map, hside, Smart.unwrap_or]
  · intro w h hf
    cases w <;> cases h <;>
      simp_all [defaultMargin, referenceMin, Abs.min, Abs.isFinite]
  · intro w h hw hh
    cases w <;> cases h <;>
      simp_all [defaultMargin, referenceMin, Abs.min, Abs.isFinite]

theorem c1_default_margin_witness :
    (wNode.prepare wStylesFin).padding.left =
      defaultMargin (Abs.fin 100) (Abs.fin 200) ∧
    defaultMargin (Abs.fin 100) (Abs.fin 200) =
      RelLen.ofAbs (Abs.scale 0.1190 ((Abs.fin 100).min (Abs.fin 200))) :=
  ⟨(c1_default_margin wNode wStylesFin).1 rfl,
   (c1_default_margin wNode wStylesFin).2.2.2.2.1 (Abs.fin 100) (Abs.fin 200) (by decide)⟩

/-- C1 counterexample: with width 100 mm and an unbounded height (one axis
unbounded, not both), the effective default margin of an auto side is
11.9 mm — 11.90% of the finite width — and not 11.90% of A4's 210 mm width
(24.99 mm) as the claim requires whenever either axis is unbounded. -/
theorem c1_default_margin_counterexample :
    cexStyles.margins.left = Smart.auto ∧
    cexStyles.height.unwrap_or Abs.inf = Abs.inf ∧
    (wNode.prepare cexStyles).padding.left = RelLen.ofAbs (Abs.fin 11.9) ∧
    RelLen.ofAbs (Abs.fin 11.9) ≠ RelLen.ofAbs (Abs.scale 0.1190 Paper.A4.widthAbs) := by
  refine ⟨rfl, rfl, ?_, ?_⟩
  · show RelLen.ofAbs (Abs.scale 0.1190 (Abs.fin 100)) = RelLen.ofAbs (Abs.fin 11.9)
    simp only [RelLen.ofAbs, Abs.scale, RelLen.mk.injEq, Abs.fin.injEq, true_and]
    norm_num
  · intro hcontra
    simp only [RelLen.ofAbs, Abs.scale, Paper.A4, Paper.widthAbs, Abs.mm,
      RelLen.mk.injEq, Abs.fin.injEq, true_and] at hcontra
    norm_num at hcontra

/-- C6: with a single column the child is not wrapped in a column node — the
margin padding (and a possible fill wrapper) applies directly around the
body — while with k > 1 columns the child is wrapped in a `ColumnsNode` with
count k inside the padding, so margins apply around the whole column block
rather than per column. -/
theorem c6_columns_wrapping (node : PageNode) (styles : PageStyles) :
    (styles.columns = 1 →
      (node.prepare styles).child =
        fillWrap styles.fill (Content.padded (node.prepare styles).padding node.body)) ∧
    (1 < styles.columns →
      (node.prepare styles).child =
        fillWrap styles.fill (Content.padded (node.prepare styles).padding
          (Content.columnsNode styles.columns node.body))) := by
  constructor
  · intro h
    simp [PageNode.prepare, h]
  · intro h
    simp [PageNode.prepare, if_pos h]

/-- Concrete styles with three columns. -/
def wStylesCols : PageStyles :=
  { width := Smart.custom (Abs.fin 100), height := Smart.custom (Abs.fin 200),
    flipped := false, margins := Sides.splat Smart.auto, columns := 3,
    fill := Option.none, header := Marginal.none, footer := Marginal.none,
    background := Marginal.none, foreground := Marginal.none }

theorem c6_columns_wrapping_witness :
    (wNode.prepare wStylesFin).child =
      fillWrap wStylesFin.fill
        (Content.padded (wNode.prepare wStylesFin).padding wNode.body) ∧
    (wNode.prepare wStylesCols).child =
      fillWrap wStylesCols.fill
        (Content.padded (wNode.prepare wStylesCols).padding
          (Content.columnsNode 3 wNode.body)) :=
  ⟨(c6_columns_wrapping wNode wStylesFin).1 rfl,
   (c6_columns_wrapping wNode wStylesCols).2 (by decide)⟩

/-- Concrete world whose block layout always produces no frames; used by
witnesses that never reach a marginal slot. -/
def wWorldEmpty : World :=
  { call := fun _ _ _ => .ok Value.none,
    display := fun _ => Content.other 0,
    layoutBlock := fun _ _ => .ok [] }

/-- C5: the block-layout collaborator is invoked with regions whose minimum
and maximum size both equal the resolved page size — axes swapped when
`flipped` is set, an auto width or height resolved to an unbounded length —
with per-axis expand flags true exactly when that axis is finite, via a
repeating (not single-region) request; the outcome of `PageNode::layout` is
exactly the post-processing of the frames this invocation returns, and its
failure propagates. -/
theorem c5_regions_invocation (node : PageNode) (styles : PageStyles)
    (world : World) (page : ℕ) :
    (node.prepare styles).regions.minSize = (node.prepare styles).size ∧
    (node.prepare styles).regions.maxSize = (node.prepare styles).size ∧
    (node.prepare styles).regions.expand =
      Axes.mk (node.prepare styles).size.x.isFinite
        (node.prepare styles).size.y.isFinite ∧
    (node.prepare styles).regions.oneShot = false ∧
    (styles.flipped = false → (node.prepare styles).size =
      Size.new (styles.width.unwrap_or Abs.inf) (styles.height.unwrap_or Abs.inf)) ∧
    (styles.flipped = true → (node.prepare styles).size =
      Size.new (styles.height.unwrap_or Abs.inf) (styles.width.unwrap_or Abs.inf)) ∧
    (∀ frames, world.layoutBlock (node.prepare styles).child
        (node.prepare styles).regions = .ok frames →
      node.layout world page styles =
        realizeFrames world styles (node.prepare styles).padding frames page) ∧
    (∀ e, world.layoutBlock (node.prepare styles).child
        (node.prepare styles).regions = .error e →
      node.layout world page styles = .error e) := by
  refine ⟨rfl, rfl, rfl, rfl, ?_, ?_, ?_, ?_⟩
  · intro h
    simp [PageNode.prepare, h, Size.new]
  · intro h
    simp [PageNode.prepare, h, Size.new]
  · intro frames h
    simp only [PageNode.layout, h]
  · intro e h
    simp only [PageNode.layout, h]

theorem c5_regions_invocation_witness :
    (wNode.prepare wStylesFin).regions.oneShot = false ∧
    wNode.layout wWorldEmpty 1 wStylesFin =
      realizeFrames wWorldEmpty wStylesFin (wNode.prepare wStylesFin).padding [] 1 :=
  ⟨(c5_regions_invocation wNode wStylesFin wWorldEmpty 1).2.2.2.1,
   (c5_regions_invocation wNode wStylesFin wWorldEmpty 1).2.2.2.2.2.2.1 [] rfl⟩

/-- C4: when a marginal resolves to content and the collaborator produces at
least one frame for its slot region, the first produced frame is tagged with
the marginal's semantic role and composited onto the page frame — prepended
before all existing frame content for the background role, appended after
existing content for the header, footer and foreground roles. -/
theorem c4_marginal_zorder (world : World) (frame : Frame) (page : ℕ)
    (role : Role) (m : Marginal) (pos : Point) (area : Size)
    (c : Content) (sub : Frame) (rest : List Frame)
    (h1 : m.resolve world page = .ok (some c))
    (h2 : world.layoutBlock c (Regions.one area area (Axes.splat true)) =
      .ok (sub :: rest)) :
    compositeMarginal world frame page role m pos area =
      (if role = Role.Background
       then .ok (frame.prepend_frame pos (sub.apply_role role))
       else .ok (frame.push_frame pos (sub.apply_role role))) ∧
    (frame.prepend_frame pos (sub.apply_role role)).items =
      (pos, sub.apply_role role) :: frame.items ∧
    (frame.push_frame pos (sub.apply_role role)).items =
      frame.items ++ [(pos, sub.apply_role role)] ∧
    (sub.apply_role role).role = some role := by
  refine ⟨?_, ?_, ?_, ?_⟩
  · simp only [compositeMarginal, h1, h2]
  · cases frame
    rfl
  · cases frame
    rfl
  · cases sub
    rfl

/-- Concrete sub-frame produced for a marginal slot. -/
def wSub : Frame := Frame.mk (Size.new Abs.zero Abs.zero) Option.none []

/-- Concrete body frame of A4 size with no content. -/
def wFrameBody : Frame :=
  Frame.mk (Size.new (Abs.fin 210) (Abs.fin 297)) Option.none []

/-- Concrete world whose block layout always produces exactly one frame. -/
def wWorldSub : World :=
  { call := fun _ _ _ => .ok Value.none,
    display := fun _ => Content.other 0,
    layoutBlock := fun _ _ => .ok [wSub] }

theorem c4_marginal_zorder_witness :
    compositeMarginal wWorldSub wFrameBody 1 Role.Header
        (Marginal.content (Content.text "h")) Point.zero
        (Size.new Abs.zero Abs.zero) =
      (if Role.Header = Role.Background
       then .ok (wFrameBody.prepend_frame Point.zero (wSub.apply_role Role.Header))
       else .ok (wFrameBody.push_frame Point.zero (wSub.apply_role Role.Header))) ∧
    (wSub.apply_role Role.Header).role = some Role.Header := by
  have h := c4_marginal_zorder wWorldSub wFrameBody 1 Role.Header
    (Marginal.content (Content.text "h")) Point.zero (Size.new Abs.zero Abs.zero)
    (Content.text "h") wSub [] rfl rfl
  exact ⟨h.1, h.2.2.2⟩

/-- C2: the post-processing loop of `PageNode::layout` handles the frames
returned by the block-layout collaborator in order with exactly one
page-counter increment per frame — the j-th frame (0-based) is post-processed
at page number p + j, so the j-th frame 1-based uses p + j - 1 — and any
`Func` marginal resolved at a page number n invokes the closure with exactly
the single integer argument n. -/
theorem c2_page_numbers (world : World) (styles : PageStyles)
    (padding : Sides RelLen) (frames : List Frame) (p : ℕ) (out : List Frame)
    (h : realizeFrames world styles padding frames p = .ok out) :
    out.length = frames.length ∧
    (∀ j, j < frames.length → ∃ fr fr2,
      frames[j]? = some fr ∧ out[j]? = some fr2 ∧
      realizeOne world styles padding fr (p + j) = .ok fr2) ∧
    (∀ f span n, Marginal.resolve (Marginal.func f span) world n =
      (world.call f span [Value.int (Int.ofNat n)]).map
        (fun v => some (world.display v))) := by
  have hfunc : ∀ f span n : ℕ, Marginal.resolve (Marginal.func f span) world n =
      (world.call f span [Value.int (Int.ofNat n)]).map
        (fun v => some (world.display v)) := by
    intro f span n
    simp only [Marginal.resolve]
    cases world.call f span [Value.int (Int.ofNat n)] <;> rfl
  induction frames generalizing p out with
  | nil =>
    simp only [realizeFrames] at h
    injection h with h
    subst h
    exact ⟨rfl, fun j hj => absurd hj (by simp), hfunc⟩
  | cons fhd ftl ih =>
    simp only [realizeFrames] at h
    cases hone : realizeOne world styles padding fhd p with
    | error e => simp [hone] at h
    | panics => simp [hone] at h
    | ok f2 =>
      rw [hone] at h
      cases hrest : realizeFrames world styles padding ftl (p + 1) with
      | error e => simp [hrest] at h
      | panics => simp [hrest] at h
      | ok rest2 =>
        rw [hrest] at h
        injection h with h
        subst h
        obtain ⟨ihlen, ihget, -⟩ := ih (p + 1) rest2 hrest
        refine ⟨by simp [ihlen], ?_, hfunc⟩
        intro j hj
        cases j with
        | zero =>
          exact ⟨fhd, f2, by simp, by simp, by simpa using hone⟩
        | succ j =>
          obtain ⟨fr, fr2, hfr, hfr2, hro⟩ := ihget j (by simpa using hj)
          refine ⟨fr, fr2, by simpa using hfr, by simpa using hfr2, ?_⟩
          have harith : p + 1 + j = p + (j + 1) := by omega
          rw [← harith]
          exact hro

theorem c2_page_numbers_witness :
    realizeOne wWorldEmpty wStylesFin (Sides.splat (RelLen.ofAbs Abs.zero))
      wFrameBody 5 = .ok wFrameBody := by
  obtain ⟨-, hget, -⟩ := c2_page_numbers wWorldEmpty wStylesFin
    (Sides.splat (RelLen.ofAbs Abs.zero)) [wFrameBody] 5 [wFrameBody] rfl
  obtain ⟨fr, fr2, hfr, hfr2, hro⟩ := hget 0 (by simp)
  simp only [List.getElem?_cons_zero, Option.some.injEq] at hfr hfr2
  subst hfr
  subst hfr2
  simpa using hro

theorem compositeMarginal_never_panics (world : World)
    (hw : ∀ c r, r.oneShot = true → world.layoutBlock c r ≠ .ok [])
    (frame : Frame) (page : ℕ) (role : Role) (m : Marginal)
    (pos : Point) (area : Size) :
    compositeMarginal world frame page role m pos area ≠ .panics := by
  cases hres : m.resolve world page with
  | error e => simp [compositeMarginal, hres]
  | ok oc =>
    cases oc with
    | none => simp [compositeMarginal, hres]
    | some c =>
      cases hlb : world.layoutBlock c (Regions.one area area (Axes.splat true)) with
      | error e => simp [compositeMarginal, hres, hlb]
      | ok fs =>
        cases fs with
        | nil => exact absurd hlb (hw c (Regions.one area area (Axes.splat true)) rfl)
        | cons f rest =>
          simp only [compositeMarginal, hres, hlb]
          split <;> simp

theorem composeAll_never_panics (world : World)
    (hw : ∀ c r, r.oneShot = true → world.layoutBlock c r ≠ .ok [])
    (slots : List (Role × Marginal × Point × Size)) (page : ℕ) (frame : Frame) :
    composeAll world page slots frame ≠ .panics := by
  induction slots generalizing frame with
  | nil => simp [composeAll]
  | cons s rest ih =>
    obtain ⟨role, m, pos, area⟩ := s
    simp only [composeAll]
    cases hx : compositeMarginal world frame page role m pos area with
    | ok f2 => exact ih f2
    | error e => simp
    | panics =>
      exact absurd hx (compositeMarginal_never_panics world hw frame page role m pos area)

theorem realizeOne_never_panics (world : World)
    (hw : ∀ c r, r.oneShot = true → world.layoutBlock c r ≠ .ok [])
    (styles : PageStyles) (padding : Sides RelLen) (frame : Frame) (page : ℕ) :
    realizeOne world styles padding frame page ≠ .panics := by
  unfold realizeOne
  exact composeAll_never_panics world hw _ page frame

theorem realizeFrames_never_panics (world : World)
    (hw : ∀ c r, r.oneShot = true → world.layoutBlock c r ≠ .ok [])
    (styles : PageStyles) (padding : Sides RelLen) :
    ∀ (frames : List Frame) (page : ℕ),
      realizeFrames world styles padding frames page ≠ .panics := by
  intro frames
  induction frames with
  | nil =>
    intro page
    simp [realizeFrames]
  | cons f rest ih =>
    intro page
    simp only [realizeFrames]
    cases hx : realizeOne world styles padding f page with
    | error e => simp
    | panics =>
      exact absurd hx (realizeOne_never_panics world hw styles padding f page)
    | ok f2 =>
      cases hy : realizeFrames world styles padding rest (page + 1) with
      | error e => simp
      | panics => exact absurd hy (ih (page + 1))
      | ok rest2 => simp

/-- Concrete body frame and collaborator for the C9 panic run: the main
repeating request yields one body frame, while every single-region request
(the marginal pods) yields no frames at all, so `remove(0)` has nothing to
remove. -/
def badWorld : World :=
  { call := fun _ _ _ => .ok Value.none,
    display := fun _ => Content.other 0,
    layoutBlock := fun _ r => if r.oneShot then .ok [] else .ok [wFrameBody] }

/-- Concrete styles with a content header, driving the marginal slot layout. -/
def badStyles : PageStyles :=
  { width := Smart.custom (Abs.fin 210), height := Smart.custom (Abs.fin 297),
    flipped := false, margins := Sides.splat Smart.auto, columns := 1,
    fill := Option.none, header := Marginal.content (Content.text "h"),
    footer := Marginal.none, background := Marginal.none,
    foreground := Marginal.none }

/-- C9: whenever a marginal resolves to content, the first frame of the
collaborator's answer for the slot's single region is removed unchecked, so
`PageNode::layout` is panic-free exactly under the unstated precondition that
the block-layout collaborator returns a non-empty frame sequence for every
single-region request; a collaborator answering such a request with no frames
drives the run into the panic. -/
theorem c9_unchecked_first_frame :
    (∀ (node : PageNode) (world : World) (page : ℕ) (styles : PageStyles),
      (∀ c r, r.oneShot = true → world.layoutBlock c r ≠ .ok []) →
      node.layout world page styles ≠ LayoutOutcome.panics) ∧
    wNode.layout badWorld 1 badStyles = LayoutOutcome.panics := by
  constructor
  · intro node world page styles hw
    simp only [PageNode.layout]
    cases hx : world.layoutBlock (node.prepare styles).child
        (node.prepare styles).regions with
    | error e => simp
    | ok frames =>
      exact realizeFrames_never_panics world hw styles (node.prepare styles).padding
        frames page
  · rfl

theorem c9_unchecked_first_frame_witness :
    wNode.layout wWorldSub 1 badStyles ≠ LayoutOutcome.panics := by
  refine c9_unchecked_first_frame.1 wNode wWorldSub 1 badStyles ?_
  intro c r hr
  simp [wWorldSub]
